import Mathlib

/-!
Verification of the balance-ledger logic of `src/app.py` (a Streamlit
inventory application backed by a SQL database).

The database state is embedded shallowly: each table is a list, each SQL
statement of the source becomes a pure function on the state.  The
`mouvements` table has a `BIGSERIAL` primary key and rows are only ever
inserted, so it is modelled as a list in insertion (= id-ascending) order;
`get_hist` (`ORDER BY id DESC`) reverses it.  Errors raised by the Python
code become an `Option MvtError` result component; the returned state is
the state at the moment the exception is raised.
-/

namespace StockApp

/-- A row of the `articles` table:
`articles(article PK, designation, stock, garantie, seuil_commande)`. -/
structure Article where
  article : String
  designation : String
  stock : Int
  garantie : Int
  seuil_commande : Option Int
deriving Repr, DecidableEq

/-- A row of the `mouvements` table (the serial `id` is kept implicit as the
position in the list; `date` is abstracted to a `Nat` timestamp). -/
structure Mouvement where
  date : Nat
  article : String
  designation : String
  type_mvt : String
  emplacement : String
  quantite : Int
  adresse : Option String
  commentaire : Option String
deriving Repr, DecidableEq

/-- The whole database: tables `articles`, `mouvements` (in id order),
`adresses`, `settings`. -/
structure DB where
  articles : List Article
  mouvements : List Mouvement
  adresses : List String
  settings : List (String × String)
deriving Repr, DecidableEq

/-- `SELECT ... FROM articles WHERE article=:a LIMIT 1` (the PK makes the
first match the only one). -/
def findArticle (db : DB) (a : String) : Option Article :=
  db.articles.find? (fun r => r.article == a)

/-- The errors `apply_movement` can raise (`raise ValueError(...)` sites, in
source order: unknown article, invalid quantity, insufficient stock,
insufficient warranty). -/
inductive MvtError where
  | articleInconnu
  | quantiteInvalide
  | stockInsuffisant
  | garantieInsuffisante
deriving Repr, DecidableEq

/-- The balance rules of `apply_movement` (lines 258-271), as a pure function
from the request and the current counters to the new `(stock, garantie)`:
`STOCK`+`ENTREE` adds to stock, `STOCK`+else subtracts from stock,
else+`ENTREE` moves from stock to warranty, else+else subtracts from
warranty. -/
def mvt_compute (type_mvt emplacement : String) (qty stock garantie : Int) :
    Int × Int :=
  if emplacement == "STOCK" then
    if type_mvt == "ENTREE" then (stock + qty, garantie)
    else (stock - qty, garantie)
  else
    if type_mvt == "ENTREE" then (stock - qty, garantie + qty)
    else (stock, garantie - qty)

/-- `UPDATE articles SET stock=:s, garantie=:g WHERE article=:a` (one
transaction in the source, since every `exec_sql` opens its own
`ENGINE.begin()` block). -/
def set_counters (db : DB) (a : String) (ns ng : Int) : DB :=
  { db with articles := db.articles.map (fun r =>
      if r.article == a then { r with stock := ns, garantie := ng } else r) }

/-- `INSERT INTO mouvements(...) VALUES (...)` (one transaction in the
source). -/
def insert_mouvement (db : DB) (m : Mouvement) : DB :=
  { db with mouvements := db.mouvements ++ [m] }

/-- Everything `apply_movement` does after its initial `read_df` of the
article row, parametrised by the `(stock, garantie)` snapshot that read
returned: the quantity check, the balance computation, the two
non-negativity checks, and on success the counter `UPDATE` followed by the
history `INSERT` (each its own transaction).  On error the state is
returned unchanged, as every `raise` in the source precedes the first
`exec_sql`. -/
def mvt_write_phase (db : DB) (d : Nat) (article designation type_mvt emplacement : String)
    (qty : Int) (adresse commentaire : Option String) (stock garantie : Int) :
    DB × Option MvtError :=
  if qty ≤ 0 then (db, some .quantiteInvalide)
  else if (mvt_compute type_mvt emplacement qty stock garantie).1 < 0 then
    (db, some .stockInsuffisant)
  else if (mvt_compute type_mvt emplacement qty stock garantie).2 < 0 then
    (db, some .garantieInsuffisante)
  else
    (insert_mouvement
      (set_counters db article (mvt_compute type_mvt emplacement qty stock garantie).1
        (mvt_compute type_mvt emplacement qty stock garantie).2)
      { date := d, article := article, designation := designation,
        type_mvt := type_mvt, emplacement := emplacement, quantite := qty,
        adresse := adresse, commentaire := commentaire }, none)

/-- `apply_movement` (lines 239-300): read the article row (raising
`articleInconnu` when absent), then run the write phase on the snapshot the
read returned. -/
def apply_movement (db : DB) (d : Nat) (article designation type_mvt emplacement : String)
    (qty : Int) (adresse commentaire : Option String) : DB × Option MvtError :=
  match findArticle db article with
  | none => (db, some .articleInconnu)
  | some row =>
      mvt_write_phase db d article designation type_mvt emplacement qty
        adresse commentaire row.stock row.garantie

/-- `add_or_update_article` (lines 150-158):
`INSERT INTO articles(article, designation, stock, garantie) VALUES (:a, :d, 0, 0)
ON CONFLICT (article) DO UPDATE SET designation = EXCLUDED.designation`.
A fresh row gets counters 0, 0 and a NULL `seuil_commande`; a conflicting
row only has its `designation` overwritten. -/
def add_or_update_article (db : DB) (a d : String) : DB :=
  match findArticle db a with
  | none => { db with articles := db.articles ++
      [{ article := a, designation := d, stock := 0, garantie := 0,
         seuil_commande := none }] }
  | some _ => { db with articles := db.articles.map (fun r =>
      if r.article == a then { r with designation := d } else r) }

/-- `delete_article` (lines 303-305): `DELETE FROM mouvements WHERE article=:a`
then `DELETE FROM articles WHERE article=:a`; the `adresses` and `settings`
tables are not touched. -/
def delete_article (db : DB) (a : String) : DB :=
  { db with
    mouvements := db.mouvements.filter (fun m => !(m.article == a)),
    articles := db.articles.filter (fun r => !(r.article == a)) }

/-- `get_hist` (lines 229-236): `SELECT ... FROM mouvements ORDER BY id DESC`. -/
def get_hist (db : DB) : List Mouvement :=
  db.mouvements.reverse

/-- `get_adresses` (lines 224-226): `SELECT nom FROM adresses ORDER BY nom`. -/
def get_adresses (db : DB) : List String :=
  db.adresses.mergeSort (fun x y => x ≤ y)

/-- `get_articles` (lines 139-142): `SELECT ... FROM articles ORDER BY article`. -/
def get_articles (db : DB) : List Article :=
  db.articles.mergeSort (fun r1 r2 => r1.article ≤ r2.article)

/-- `df["seuil_commande"].fillna(int(new_global))` (line 565): the effective
threshold of an article under global threshold `g`. -/
def seuil_effectif (g : Int) (r : Article) : Int :=
  r.seuil_commande.getD g

/-- The sort key order of `sort_values(["stock", "designation", "article"])`
(line 566-568): lexicographic on (stock, designation, article). -/
def reorderLE (r1 r2 : Article) : Bool :=
  decide ((toLex (r1.stock, toLex (r1.designation, r1.article))) ≤
          (toLex (r2.stock, toLex (r2.designation, r2.article))))

/-- The reorder list (lines 564-568): take the article snapshot, keep the rows
with `stock <= seuil_effectif`, sort by (stock, designation, article). -/
def a_commander (db : DB) (g : Int) : List Article :=
  ((get_articles db).filter (fun r => r.stock ≤ seuil_effectif g r)).mergeSort reorderLE

/-- One `apply_movement` request (the arguments of a single call). -/
structure MvtReq where
  d : Nat
  article : String
  designation : String
  type_mvt : String
  emplacement : String
  qty : Int
  adresse : Option String
  commentaire : Option String
deriving Repr, DecidableEq

/-- Run one request against the database; a raised error leaves the state as
it was (no `exec_sql` precedes any `raise` in the source). -/
def applyReq (db : DB) (r : MvtReq) : DB :=
  (apply_movement db r.d r.article r.designation r.type_mvt r.emplacement
    r.qty r.adresse r.commentaire).1

/-- Run a sequence of requests in order. -/
def apply_seq (db : DB) (reqs : List MvtReq) : DB :=
  reqs.foldl applyReq db

/-- The system invariant: every article row has non-negative counters. -/
def ArticleInv (db : DB) : Prop :=
  ∀ r ∈ db.articles, 0 ≤ r.stock ∧ 0 ≤ r.garantie

/-! Concrete databases used to instantiate the theorems. -/

/-- The empty database (state right after `init_db` on a fresh store). -/
def dbEmpty : DB :=
  { articles := [], mouvements := [], adresses := [], settings := [] }

/-- A demo article with stock 3 and no per-article threshold. -/
def rowDemo : Article :=
  { article := "155082", designation := "Sonde O2", stock := 3, garantie := 0,
    seuil_commande := none }

/-- A database holding just `rowDemo`. -/
def db155 : DB :=
  { articles := [rowDemo], mouvements := [], adresses := [],
    settings := [("seuil_global", "3")] }

/-- The write phase of the request `SORTIE`/`STOCK`/qty 2 on article
`"155082"`, run against state `db` with the `(stock, garantie)` snapshot a
previous read returned. -/
def sortieWrite (db : DB) (stock garantie : Int) : DB × Option MvtError :=
  mvt_write_phase db 0 "155082" "Sonde O2" "SORTIE" "STOCK" 2 none none
    stock garantie

/-- A full (read + write) `apply_movement` call for the same request. -/
def sortieCall (db : DB) : DB × Option MvtError :=
  apply_movement db 0 "155082" "Sonde O2" "SORTIE" "STOCK" 2 none none

/-- Final state of the interleaving read₁ read₂ write₁ write₂ of two
`sortieCall`s against `db155`: both reads see the snapshot (3, 0) of
`db155`, then both write phases run in sequence.  This interleaving is
possible because each of the read, the counter update and the history
insert runs in its own `ENGINE.begin()` transaction. -/
def interleaved_final : DB :=
  (sortieWrite (sortieWrite db155 3 0).1 3 0).1

/-- Final state of the two calls run serially. -/
def serial_final : DB :=
  (sortieCall (sortieCall db155).1).1

/-- State of `db155` after a successful `ENTREE`/`STOCK`/5 movement. -/
def db155after : DB :=
  (apply_movement db155 0 "155082" "Sonde O2" "ENTREE" "STOCK" 5 none none).1

/-- Reorder-scenario article A: stock 3, no per-article threshold. -/
def artA : Article :=
  { article := "A", designation := "Alpha", stock := 3, garantie := 0,
    seuil_commande := none }

/-- Reorder-scenario article B: stock 3, per-article threshold 0. -/
def artB : Article :=
  { article := "B", designation := "Beta", stock := 3, garantie := 0,
    seuil_commande := some 0 }

/-- The reorder-scenario database. -/
def dbW : DB :=
  { articles := [artA, artB], mouvements := [], adresses := [], settings := [] }

/-- A movement row of article `"X"`. -/
def mX : Mouvement :=
  { date := 0, article := "X", designation := "XD", type_mvt := "ENTREE",
    emplacement := "STOCK", quantite := 2, adresse := none, commentaire := none }

/-- A movement row of article `"Y"`. -/
def mY : Mouvement :=
  { date := 1, article := "Y", designation := "YD", type_mvt := "ENTREE",
    emplacement := "STOCK", quantite := 1, adresse := none, commentaire := none }

/-- A database with two articles and one movement each, plus an address and a
setting. -/
def dbXY : DB :=
  { articles := [{ article := "X", designation := "XD", stock := 2, garantie := 0,
                   seuil_commande := none },
                 { article := "Y", designation := "YD", stock := 1, garantie := 0,
                   seuil_commande := none }],
    mouvements := [mX, mY], adresses := ["Chantier A"],
    settings := [("seuil_global", "3")] }

/-! Helper lemmas about the embedded operations. -/

/-- `find?` after a keyed in-place update: updating (via `u`, which preserves
the key field) exactly the rows whose key matches `a` moves `find?` from
`row` to `u row`. -/
theorem find?_map_ite (a : String) (u : Article → Article)
    (hu : ∀ r, (u r).article = r.article) (l : List Article) :
    ∀ row : Article,
      l.find? (fun x => x.article == a) = some row →
      (l.map (fun x => if x.article == a then u x else x)).find?
          (fun x => x.article == a) = some (u row) := by
  induction l with
  | nil => intro row h; simp [List.find?] at h
  | cons r t ih =>
    intro row h
    by_cases hr : r.article = a
    · have hrb : (r.article == a) = true := by simp [hr]
      have hub : ((u r).article == a) = true := by simp [hu r, hr]
      simp only [List.find?_cons, hrb, cond_true] at h
      have hrow : r = row := by injection h
      subst hrow
      simp only [List.map_cons, if_pos hrb, List.find?_cons, hub, cond_true]
    · have hrb : (r.article == a) = false := by simp [hr]
      simp only [List.find?_cons, hrb, cond_false] at h
      simp only [List.map_cons, hrb, Bool.false_eq_true, if_false,
        List.find?_cons, cond_false]
      exact ih row h

/-- Looking up the updated article after `set_counters`. -/
theorem findArticle_set_counters (db : DB) (a : String) (ns ng : Int)
    (row : Article) (h : findArticle db a = some row) :
    findArticle (set_counters db a ns ng) a =
      some { row with stock := ns, garantie := ng } :=
  find?_map_ite a (fun r => { r with stock := ns, garantie := ng })
    (fun _ => rfl) db.articles row h

/-- `insert_mouvement` does not change the `articles` table. -/
theorem findArticle_insert_mouvement (db : DB) (m : Mouvement) (a : String) :
    findArticle (insert_mouvement db m) a = findArticle db a := rfl

/-- `apply_movement` on an unknown article raises `articleInconnu` with the
state untouched. -/
theorem apply_movement_none (db : DB) (d : Nat) (a dn tm em : String)
    (q : Int) (adr c : Option String) (h : findArticle db a = none) :
    apply_movement db d a dn tm em q adr c = (db, some .articleInconnu) := by
  unfold apply_movement
  rw [h]

/-- `apply_movement` on a known article is its write phase run on the
snapshot the read returned. -/
theorem apply_movement_some (db : DB) (d : Nat) (a dn tm em : String)
    (q : Int) (adr c : Option String) (row : Article)
    (h : findArticle db a = some row) :
    apply_movement db d a dn tm em q adr c =
      mvt_write_phase db d a dn tm em q adr c row.stock row.garantie := by
  unfold apply_movement
  rw [h]

/-- Shape of a successful `apply_movement`: when the article exists, the
quantity is positive and both computed counters are non-negative, the call
updates the counters and appends exactly one history row. -/
theorem apply_movement_ok (db : DB) (d : Nat) (a dn tm em : String) (q : Int)
    (adr c : Option String) (row : Article)
    (hrow : findArticle db a = some row) (hq : ¬ q ≤ 0)
    (hns : ¬ (mvt_compute tm em q row.stock row.garantie).1 < 0)
    (hng : ¬ (mvt_compute tm em q row.stock row.garantie).2 < 0) :
    apply_movement db d a dn tm em q adr c =
      (insert_mouvement
        (set_counters db a (mvt_compute tm em q row.stock row.garantie).1
          (mvt_compute tm em q row.stock row.garantie).2)
        { date := d, article := a, designation := dn, type_mvt := tm,
          emplacement := em, quantite := q, adresse := adr, commentaire := c },
       none) := by
  rw [apply_movement_some db d a dn tm em q adr c row hrow]
  unfold mvt_write_phase
  rw [if_neg hq, if_neg hns, if_neg hng]

/-- `set_counters` with non-negative values preserves the invariant. -/
theorem articleInv_set_counters (db : DB) (a : String) (ns ng : Int)
    (h : ArticleInv db) (hns : 0 ≤ ns) (hng : 0 ≤ ng) :
    ArticleInv (set_counters db a ns ng) := by
  intro r hr
  simp only [set_counters, List.mem_map] at hr
  obtain ⟨r0, hr0, rfl⟩ := hr
  by_cases hc : r0.article == a
  · simp only [hc, if_true]
    exact ⟨hns, hng⟩
  · simp only [hc, Bool.false_eq_true, if_false]
    exact h r0 hr0

/-- One `applyReq` step preserves the invariant: every rejection leaves the
state untouched and every success writes the two counters it has just
checked to be non-negative. -/
theorem articleInv_applyReq (db : DB) (r : MvtReq) (h : ArticleInv db) :
    ArticleInv (applyReq db r) := by
  unfold applyReq
  cases hrow : findArticle db r.article with
  | none =>
    rw [apply_movement_none db r.d r.article r.designation r.type_mvt
      r.emplacement r.qty r.adresse r.commentaire hrow]
    exact h
  | some row =>
    rw [apply_movement_some db r.d r.article r.designation r.type_mvt
      r.emplacement r.qty r.adresse r.commentaire row hrow]
    unfold mvt_write_phase
    by_cases h1 : r.qty ≤ 0
    · rw [if_pos h1]; exact h
    · rw [if_neg h1]
      by_cases h2 : (mvt_compute r.type_mvt r.emplacement r.qty row.stock row.garantie).1 < 0
      · rw [if_pos h2]; exact h
      · rw [if_neg h2]
        by_cases h3 : (mvt_compute r.type_mvt r.emplacement r.qty row.stock row.garantie).2 < 0
        · rw [if_pos h3]; exact h
        · rw [if_neg h3]
          exact articleInv_set_counters db r.article _ _ h
            (le_of_not_lt h2) (le_of_not_lt h3)

/-- `add_or_update_article` preserves the invariant (a fresh row starts at
0/0; an existing row keeps its counters). -/
theorem articleInv_add_or_update (db : DB) (a dn : String) (h : ArticleInv db) :
    ArticleInv (add_or_update_article db a dn) := by
  unfold add_or_update_article
  cases hrow : findArticle db a with
  | none =>
    intro r hr
    simp only [List.mem_append, List.mem_singleton] at hr
    rcases hr with hr | rfl
    · exact h r hr
    · exact ⟨le_refl 0, le_refl 0⟩
  | some row =>
    intro r hr
    simp only [List.mem_map] at hr
    obtain ⟨r0, hr0, rfl⟩ := hr
    by_cases hc : r0.article == a
    · simp only [hc, if_true]
      exact h r0 hr0
    · simp only [hc, Bool.false_eq_true, if_false]
      exact h r0 hr0

/-- Any request sequence preserves the invariant. -/
theorem articleInv_apply_seq (db : DB) (reqs : List MvtReq)
    (h : ArticleInv db) : ArticleInv (apply_seq db reqs) := by
  induction reqs generalizing db with
  | nil => exact h
  | cons r t ih => exact ih _ (articleInv_applyReq db r h)

/-- C1: starting from registration (counters 0/0) out of any state satisfying
the invariant, the stock and warranty counters of every article are ≥ 0
after every call of any `apply_movement` sequence — i.e. after every prefix
of the sequence — because a call that would drive a counter negative is
rejected and performs no update. -/
theorem c1_counters_nonneg_every_step (db : DB) (a dn : String)
    (reqs p : List MvtReq) (hdb : ArticleInv db) (_hp : p <+: reqs) :
    ArticleInv (apply_seq (add_or_update_article db a dn) p) :=
  articleInv_apply_seq _ p (articleInv_add_or_update db a dn hdb)

/-- Witness for C1 at a concrete run: register "155082" in the empty database
and run ENTREE 5 as a prefix of [ENTREE 5, SORTIE 9]. -/
theorem c1_counters_nonneg_every_step_witness :
    ArticleInv (apply_seq (add_or_update_article dbEmpty "155082" "Sonde O2")
      [{ d := 0, article := "155082", designation := "Sonde O2",
         type_mvt := "ENTREE", emplacement := "STOCK", qty := 5,
         adresse := none, commentaire := none }]) :=
  c1_counters_nonneg_every_step dbEmpty "155082" "Sonde O2"
    [{ d := 0, article := "155082", designation := "Sonde O2",
       type_mvt := "ENTREE", emplacement := "STOCK", qty := 5,
       adresse := none, commentaire := none },
     { d := 0, article := "155082", designation := "Sonde O2",
       type_mvt := "SORTIE", emplacement := "STOCK", qty := 9,
       adresse := none, commentaire := none }]
    [{ d := 0, article := "155082", designation := "Sonde O2",
       type_mvt := "ENTREE", emplacement := "STOCK", qty := 5,
       adresse := none, commentaire := none }]
    (by intro r hr; simp [dbEmpty] at hr)
    ⟨[{ d := 0, article := "155082", designation := "Sonde O2",
        type_mvt := "SORTIE", emplacement := "STOCK", qty := 9,
        adresse := none, commentaire := none }], rfl⟩

/-- C3: every rejection of `apply_movement` — unknown article, non-positive
quantity, or a resulting stock or warranty below zero — leaves the database
(counters and movement history alike) exactly as it was: every `raise`
precedes the first `exec_sql`. -/
theorem c3_rejection_is_atomic (db : DB) (d : Nat) (a dn tm em : String)
    (q : Int) (adr c : Option String) (db' : DB) (e : MvtError)
    (h : apply_movement db d a dn tm em q adr c = (db', some e)) :
    db' = db := by
  cases hrow : findArticle db a with
  | none =>
    rw [apply_movement_none db d a dn tm em q adr c hrow] at h
    injection h with h1 h2
    exact h1.symm
  | some row =>
    rw [apply_movement_some db d a dn tm em q adr c row hrow] at h
    unfold mvt_write_phase at h
    by_cases h1 : q ≤ 0
    · rw [if_pos h1] at h
      injection h with ha hb
      exact ha.symm
    · rw [if_neg h1] at h
      by_cases h2 : (mvt_compute tm em q row.stock row.garantie).1 < 0
      · rw [if_pos h2] at h
        injection h with ha hb
        exact ha.symm
      · rw [if_neg h2] at h
        by_cases h3 : (mvt_compute tm em q row.stock row.garantie).2 < 0
        · rw [if_pos h3] at h
          injection h with ha hb
          exact ha.symm
        · rw [if_neg h3] at h
          injection h with ha hb
          exact Option.noConfusion hb

/-- Witness for C3: `SORTIE`/`STOCK`/5 against stock 3 is rejected with the
state unchanged. -/
theorem c3_rejection_is_atomic_witness : db155 = db155 :=
  c3_rejection_is_atomic db155 0 "155082" "Sonde O2" "SORTIE" "STOCK" 5
    none none db155 MvtError.stockInsuffisant (by decide)

/-- C2: a successful `apply_movement` on a registered article with counters
(s, w) and quantity q > 0 sets the counters to (s + q, w) for
STOCK/ENTREE, (s - q, w) for STOCK/SORTIE, (s - q, w + q) for
GARANTIE/ENTREE (a transfer out of stock), and (s, w - q) for
GARANTIE/SORTIE (the quantity does not re-enter stock). -/
theorem c2_counter_update_table (db : DB) (d : Nat) (a dn tm em : String)
    (q : Int) (adr c : Option String) (row : Article) (db' : DB)
    (hrow : findArticle db a = some row) (hq : 0 < q)
    (hok : apply_movement db d a dn tm em q adr c = (db', none)) :
    findArticle db' a = some { row with
      stock := if em = "STOCK" then
          (if tm = "ENTREE" then row.stock + q else row.stock - q)
        else (if tm = "ENTREE" then row.stock - q else row.stock),
      garantie := if em = "STOCK" then row.garantie
        else (if tm = "ENTREE" then row.garantie + q else row.garantie - q) } := by
  rw [apply_movement_some db d a dn tm em q adr c row hrow] at hok
  unfold mvt_write_phase at hok
  by_cases h1 : q ≤ 0
  · exact absurd h1 (not_le.mpr hq)
  rw [if_neg h1] at hok
  by_cases h2 : (mvt_compute tm em q row.stock row.garantie).1 < 0
  · rw [if_pos h2] at hok
    injection hok with ha hb
    exact Option.noConfusion hb
  rw [if_neg h2] at hok
  by_cases h3 : (mvt_compute tm em q row.stock row.garantie).2 < 0
  · rw [if_pos h3] at hok
    injection hok with ha hb
    exact Option.noConfusion hb
  rw [if_neg h3] at hok
  injection hok with ha hb
  rw [← ha, findArticle_insert_mouvement,
    findArticle_set_counters db a _ _ row hrow]
  unfold mvt_compute
  by_cases hem : em = "STOCK" <;> by_cases htm : tm = "ENTREE" <;>
    simp [hem, htm]

/-- Witness for C2: ENTREE/STOCK/5 against stock 3 yields stock 8. -/
theorem c2_counter_update_table_witness :
    findArticle db155after "155082" =
      some { article := "155082", designation := "Sonde O2", stock := 8,
             garantie := 0, seuil_commande := none } := by
  have h := c2_counter_update_table db155 0 "155082" "Sonde O2" "ENTREE"
    "STOCK" 5 none none rowDemo db155after rfl (by decide) rfl
  simpa [rowDemo] using h

/-- C6: on a registered article with non-negative counters, ENTREE/STOCK/q
followed by SORTIE/STOCK/q (q > 0) both succeed, the warranty counter is
unchanged throughout, and the stock counter is restored to its initial
value. -/
theorem c6_entree_sortie_round_trip (db : DB) (d1 d2 : Nat) (a dn : String)
    (q : Int) (adr1 cm1 adr2 cm2 : Option String) (row : Article)
    (hrow : findArticle db a = some row) (hs : 0 ≤ row.stock)
    (hg : 0 ≤ row.garantie) (hq : 0 < q) :
    ∃ db1 db2 : DB,
      apply_movement db d1 a dn "ENTREE" "STOCK" q adr1 cm1 = (db1, none) ∧
      apply_movement db1 d2 a dn "SORTIE" "STOCK" q adr2 cm2 = (db2, none) ∧
      findArticle db1 a = some { row with stock := row.stock + q } ∧
      findArticle db2 a = some row := by
  obtain ⟨ra, rd, rs, rg, rc⟩ := row
  simp only at hrow hs hg ⊢
  have hq' : ¬ q ≤ 0 := not_le.mpr hq
  have hin1 : (mvt_compute "ENTREE" "STOCK" q rs rg).1 = rs + q := rfl
  have hin2 : (mvt_compute "ENTREE" "STOCK" q rs rg).2 = rg := rfl
  have hstep1 := apply_movement_ok db d1 a dn "ENTREE" "STOCK" q adr1 cm1
    ⟨ra, rd, rs, rg, rc⟩ hrow hq'
    (by rw [hin1]; omega) (by rw [hin2]; omega)
  have hrow1 : findArticle
      (insert_mouvement (set_counters db a (mvt_compute "ENTREE" "STOCK" q rs rg).1
        (mvt_compute "ENTREE" "STOCK" q rs rg).2)
        { date := d1, article := a, designation := dn, type_mvt := "ENTREE",
          emplacement := "STOCK", quantite := q, adresse := adr1,
          commentaire := cm1 }) a =
      some ⟨ra, rd, rs + q, rg, rc⟩ := by
    rw [findArticle_insert_mouvement,
      findArticle_set_counters db a _ _ ⟨ra, rd, rs, rg, rc⟩ hrow]
    simp [hin1, hin2]
  have hout1 : (mvt_compute "SORTIE" "STOCK" q (rs + q) rg).1 = rs + q - q := rfl
  have hout2 : (mvt_compute "SORTIE" "STOCK" q (rs + q) rg).2 = rg := rfl
  have hstep2 := apply_movement_ok _ d2 a dn "SORTIE" "STOCK" q adr2 cm2
    ⟨ra, rd, rs + q, rg, rc⟩ hrow1 hq'
    (by rw [hout1]; omega) (by rw [hout2]; omega)
  refine ⟨_, _, hstep1, hstep2, hrow1, ?_⟩
  rw [findArticle_insert_mouvement,
    findArticle_set_counters _ a _ _ ⟨ra, rd, rs + q, rg, rc⟩ hrow1]
  simp [hout1, hout2]

/-- Witness for C6 at `db155`: ENTREE/STOCK/5 then SORTIE/STOCK/5 restores
stock 3. -/
theorem c6_entree_sortie_round_trip_witness :
    ∃ db1 db2 : DB,
      apply_movement db155 0 "155082" "Sonde O2" "ENTREE" "STOCK" 5 none none =
        (db1, none) ∧
      apply_movement db1 1 "155082" "Sonde O2" "SORTIE" "STOCK" 5 none none =
        (db2, none) ∧
      findArticle db1 "155082" = some { rowDemo with stock := rowDemo.stock + 5 } ∧
      findArticle db2 "155082" = some rowDemo :=
  c6_entree_sortie_round_trip db155 0 1 "155082" "Sonde O2" 5 none none
    none none rowDemo rfl (by decide) (by decide) (by decide)

/-- C7 counterexample: a request with quantity 0 against an article that is
not registered is rejected as `articleInconnu`, not as an invalid quantity:
the read of the article row precedes the quantity check, contradicting the
claim that a non-positive quantity is rejected before any read of
persisted state. -/
theorem c7_counterexample_read_precedes_qty_check :
    (apply_movement dbEmpty 0 "155082" "Sonde O2" "SORTIE" "STOCK" 0
        none none).2 = some MvtError.articleInconnu ∧
    some MvtError.articleInconnu ≠ some MvtError.quantiteInvalide :=
  ⟨rfl, by decide⟩

/-- C7 (amended): `apply_movement` rejects a non-positive quantity with a
validation error and no state change, but only after reading the article's
row — for a registered article; an unknown article is reported as unknown
even when the quantity is also non-positive. -/
theorem c7_amended_qty_check_after_read (db : DB) (d : Nat)
    (a dn tm em : String) (q : Int) (adr c : Option String) (row : Article)
    (hrow : findArticle db a = some row) (hq : q ≤ 0) :
    apply_movement db d a dn tm em q adr c =
      (db, some MvtError.quantiteInvalide) := by
  rw [apply_movement_some db d a dn tm em q adr c row hrow]
  unfold mvt_write_phase
  rw [if_pos hq]

/-- Witness for the amended C7: quantity 0 on the registered article. -/
theorem c7_amended_qty_check_after_read_witness :
    apply_movement db155 0 "155082" "Sonde O2" "SORTIE" "STOCK" 0 none none =
      (db155, some MvtError.quantiteInvalide) :=
  c7_amended_qty_check_after_read db155 0 "155082" "Sonde O2" "SORTIE"
    "STOCK" 0 none none rowDemo rfl (by decide)

/-- Reduction of `add_or_update_article` when the article is new. -/
theorem add_or_update_article_new (db : DB) (a dn : String)
    (h : findArticle db a = none) :
    add_or_update_article db a dn = { db with articles := db.articles ++
      [{ article := a, designation := dn, stock := 0, garantie := 0,
         seuil_commande := none }] } := by
  unfold add_or_update_article
  rw [h]

/-- Reduction of `add_or_update_article` when the article already exists. -/
theorem add_or_update_article_existing (db : DB) (a dn : String)
    (row : Article) (h : findArticle db a = some row) :
    add_or_update_article db a dn =
      { db with articles := db.articles.map (fun r => if r.article == a then { r with designation := dn } else r) } := by
  unfold add_or_update_article
  rw [h]

/-- C8: `add_or_update_article` is an idempotent upsert that never resets
counters: an absent identifier is created with stock 0, warranty 0 and no
per-article threshold; a present identifier only has its display name
overwritten (stock, warranty and threshold untouched); and running the call
twice equals running it once. -/
theorem c8_upsert_idempotent_never_resets (db : DB) (a dn : String) :
    (findArticle db a = none →
      findArticle (add_or_update_article db a dn) a =
        some { article := a, designation := dn, stock := 0, garantie := 0,
               seuil_commande := none }) ∧
    (∀ row, findArticle db a = some row →
      findArticle (add_or_update_article db a dn) a =
        some { row with designation := dn }) ∧
    add_or_update_article (add_or_update_article db a dn) a dn =
      add_or_update_article db a dn := by
  refine ⟨?_, ?_, ?_⟩
  · intro hnone
    rw [add_or_update_article_new db a dn hnone]
    unfold findArticle at hnone ⊢
    simp only [List.find?_append, hnone, Option.none_or]
    simp [List.find?]
  · intro row hrow
    rw [add_or_update_article_existing db a dn row hrow]
    unfold findArticle at hrow ⊢
    exact find?_map_ite a (fun r => { r with designation := dn })
      (fun _ => rfl) db.articles row hrow
  · cases hrow : findArticle db a with
    | none =>
      rw [add_or_update_article_new db a dn hrow]
      have hfound : findArticle { db with articles := db.articles ++
          [{ article := a, designation := dn, stock := 0, garantie := 0,
             seuil_commande := none }] } a =
          some { article := a, designation := dn, stock := 0, garantie := 0,
                 seuil_commande := none } := by
        unfold findArticle at hrow ⊢
        simp only [List.find?_append, hrow, Option.none_or]
        simp [List.find?]
      rw [add_or_update_article_existing _ a dn _ hfound]
      have hall : ∀ r ∈ db.articles, (r.article == a) = false := by
        unfold findArticle at hrow
        intro r hr
        simpa using List.find?_eq_none.mp hrow r hr
      congr 1
      have hid : ∀ x ∈ db.articles ++
          [{ article := a, designation := dn, stock := 0, garantie := 0,
             seuil_commande := none }],
          (if x.article == a then { x with designation := dn } else x) = x := by
        intro x hx
        rcases List.mem_append.mp hx with hx | hx
        · simp [hall x hx]
        · simp only [List.mem_singleton] at hx
          subst hx
          simp
      rw [List.map_congr_left hid, List.map_id']
    | some row =>
      rw [add_or_update_article_existing db a dn row hrow]
      have hfound : findArticle
          { db with articles := db.articles.map (fun r => if r.article == a then { r with designation := dn } else r) } a =
          some { row with designation := dn } := by
        unfold findArticle at hrow ⊢
        exact find?_map_ite a (fun r => { r with designation := dn })
          (fun _ => rfl) db.articles row hrow
      rw [add_or_update_article_existing _ a dn _ hfound]
      congr 1
      rw [List.map_map]
      apply List.map_congr_left
      intro r hr
      by_cases hc : r.article = a
      · simp [Function.comp, hc]
      · simp [Function.comp, hc]

/-- Witness for C8: registering "155082" in the empty database creates it
with counters 0/0 and no threshold. -/
theorem c8_upsert_idempotent_never_resets_witness :
    findArticle (add_or_update_article dbEmpty "155082" "Sonde O2") "155082" =
      some { article := "155082", designation := "Sonde O2", stock := 0,
             garantie := 0, seuil_commande := none } :=
  (c8_upsert_idempotent_never_resets dbEmpty "155082" "Sonde O2").1 rfl

/-- C9: `delete_article a` removes the article row and every movement row of
`a` (no soft delete), so the subsequent history listing contains no row
referencing `a`, while every movement of any other article is kept. -/
theorem c9_delete_article_removes_article_and_history (db : DB) (a : String) :
    findArticle (delete_article db a) a = none ∧
    (∀ m, m ∈ get_hist (delete_article db a) ↔
      (m ∈ get_hist db ∧ m.article ≠ a)) := by
  constructor
  · unfold findArticle delete_article
    simp [List.find?_eq_none, List.mem_filter]
  · intro m
    unfold get_hist delete_article
    simp [List.mem_reverse, List.mem_filter]

/-- Witness for C9: deleting "X" from `dbXY` keeps the movement of "Y". -/
theorem c9_delete_article_removes_article_and_history_witness :
    mY ∈ get_hist (delete_article dbXY "X") :=
  ((c9_delete_article_removes_article_and_history dbXY "X").2 mY).mpr
    ⟨by decide, by decide⟩

/-- C10: `delete_article` touches only the `articles` and `mouvements`
tables: the `adresses` and `settings` tables are unchanged, so addresses
referenced only by the deleted article's movements stay registered. -/
theorem c10_delete_article_preserves_adresses_settings (db : DB) (a : String) :
    (delete_article db a).adresses = db.adresses ∧
    (delete_article db a).settings = db.settings ∧
    get_adresses (delete_article db a) = get_adresses db :=
  ⟨rfl, rfl, rfl⟩

/-- C4: the reorder list contains exactly the articles whose stock is at or
below their effective threshold (the per-article threshold when set, the
global threshold otherwise — in particular, an article with a per-article
threshold T is listed iff stock ≤ T, whatever the global threshold is), and
it is sorted by stock ascending, then display name, then identifier.  The
computation is a pure projection of the database state. -/
theorem c4_a_commander_spec (db : DB) (g : Int) :
    (∀ r, r ∈ a_commander db g ↔
      (r ∈ db.articles ∧ r.stock ≤ seuil_effectif g r)) ∧
    (∀ r T, r.seuil_commande = some T →
      (r ∈ a_commander db g ↔ (r ∈ db.articles ∧ r.stock ≤ T))) ∧
    (a_commander db g).Pairwise (fun r1 r2 =>
      r1.stock < r2.stock ∨ (r1.stock = r2.stock ∧
        (r1.designation < r2.designation ∨
          (r1.designation = r2.designation ∧ r1.article ≤ r2.article)))) := by
  have htrans : ∀ x y z : Article, reorderLE x y → reorderLE y z → reorderLE x z := by
    intro x y z hxy hyz
    simp only [reorderLE, decide_eq_true_eq] at *
    exact le_trans hxy hyz
  have htotal : ∀ x y : Article, reorderLE x y || reorderLE y x := by
    intro x y
    simp only [reorderLE, Bool.or_eq_true, decide_eq_true_eq]
    exact le_total _ _
  refine ⟨?_, ?_, ?_⟩
  · intro r
    unfold a_commander get_articles
    simp [List.mem_filter, decide_eq_true_eq]
  · intro r T hT
    unfold a_commander get_articles
    simp [List.mem_filter, decide_eq_true_eq, seuil_effectif, hT]
  · unfold a_commander
    have hs := List.sorted_mergeSort htrans htotal
      ((get_articles db).filter (fun r => r.stock ≤ seuil_effectif g r))
    refine hs.imp ?_
    intro x y hxy
    unfold reorderLE at hxy
    rw [decide_eq_true_eq, Prod.Lex.le_iff, Prod.Lex.le_iff] at hxy
    simpa using hxy

/-- Witness for C4 (the spec scenario): with global threshold 3, article A
(stock 3, no per-article threshold) is listed, article B (stock 3,
per-article threshold 0) is not. -/
theorem c4_a_commander_spec_witness :
    artA ∈ a_commander dbW 3 ∧ artB ∉ a_commander dbW 3 := by
  constructor
  · exact ((c4_a_commander_spec dbW 3).1 artA).mpr ⟨by decide, by decide⟩
  · intro h
    have h2 := ((c4_a_commander_spec dbW 3).2.1 artB 0 rfl).mp h
    exact absurd h2.2 (by decide)

/-- C5 refuted on the code: every `exec_sql`/`read_df` opens its own
`ENGINE.begin()` transaction, so the read, the validation, the counter
update and the history insert of `apply_movement` are not one atomic unit.
Interleaving two SORTIE/STOCK/2 calls against stock 3 as
read-read-write-write lets both validate against the stale snapshot (3, 0)
and both commit: the final state (stock 1, two SORTIE rows drawing 4 from a
stock of 3) differs from the serial outcome, in which the second call is
rejected with `stockInsuffisant` and only one movement row exists — the
interleaved execution is equivalent to no serialization of the two calls. -/
theorem c5_interleaving_not_serializable :
    (sortieWrite db155 3 0).2 = none ∧
    (sortieWrite (sortieWrite db155 3 0).1 3 0).2 = none ∧
    (sortieCall (sortieCall db155).1).2 = some MvtError.stockInsuffisant ∧
    interleaved_final.mouvements.length = 2 ∧
    serial_final.mouvements.length = 1 ∧
    interleaved_final ≠ serial_final := by decide

end StockApp
